import Mathlib

/-!
Verification of the content-collection configuration in
`src/content/config.ts`.

The file under verification declares a single Astro content collection
named "posts" whose entries are validated against a zod object schema:

  schema: z.object({
    title: z.string(),
    description: z.string(),
    date: z.date(),
    draft: z.boolean().optional().default(false),
  })

We embed the front-matter values reaching the schema as a small inductive
type `Value` (strings, numbers, booleans, nulls, and Date objects; a Date
whose timestamp is NaN is modelled as `vdate none`, a valid Date with
timestamp `t` as `vdate (some t)`).  A front-matter entry is an
association list from keys to values.  `validatePosts` is the shallow
embedding of running the zod object schema on an entry: each field parser
mirrors the corresponding zod primitive (`z.string()` accepts exactly
string values, `z.date()` accepts exactly Date values with a non-NaN
timestamp, `z.boolean().optional().default(false)` accepts exactly boolean
values and substitutes `false` when the key is absent), and, as zod object
schemas do by default, the successful result carries only the four schema
keys (strip mode), which the output structure `Post` makes explicit.
-/

namespace Embenauts

/-- A front-matter value as it reaches the schema after YAML parsing. -/
inductive Value where
  | vstr (s : String)
  | vnum (n : Int)
  | vbool (b : Bool)
  | vdate (t : Option Int)
  | vnull
  deriving DecidableEq

/-- A front-matter entry: an association list from keys to values. -/
abbrev FrontMatter := List (String × Value)

/-- Look up a key in a front-matter entry; `none` means the key is absent. -/
def lookupKey (e : FrontMatter) (k : String) : Option Value :=
  (e.find? (fun p => p.1 == k)).map Prod.snd

/-- The validated output of the posts schema: exactly the four schema fields. -/
structure Post where
  title : String
  description : String
  date : Int
  draft : Bool
  deriving DecidableEq

/-- Embedding of `z.string()`: accepts exactly string values. -/
def parseString : Option Value → Option String
  | some (Value.vstr s) => some s
  | _ => none

/-- Embedding of `z.date()`: accepts exactly Date values whose timestamp is
not NaN. -/
def parseDate : Option Value → Option Int
  | some (Value.vdate (some t)) => some t
  | _ => none

/-- Embedding of `z.boolean().optional().default(false)`: an absent key
yields the default `false`; a present value must be a boolean. -/
def parseDraft : Option Value → Option Bool
  | none => some false
  | some (Value.vbool b) => some b
  | _ => none

/-- Embedding of validating a front-matter entry against the posts schema
(`posts.schema` in `src/content/config.ts`).  `none` models rejection with
a schema error; `some p` models successful validation with result `p`. -/
def validatePosts (e : FrontMatter) : Option Post :=
  (parseString (lookupKey e "title")).bind fun t =>
  (parseString (lookupKey e "description")).bind fun d =>
  (parseDate (lookupKey e "date")).bind fun dt =>
  (parseDraft (lookupKey e "draft")).map fun dr =>
  { title := t, description := d, date := dt, draft := dr }

/-- The `type:` discriminator of `defineCollection`. -/
inductive CollectionType where
  | content
  | data
  deriving DecidableEq

/-- Embedding of the result of `defineCollection`: its `type` discriminator
and its schema, represented by the validation function it induces. -/
structure Collection where
  type : CollectionType
  schema : FrontMatter → Option Post

/-- Embedding of the `posts` collection declared in `src/content/config.ts`. -/
def posts : Collection :=
  { type := CollectionType.content, schema := validatePosts }

/-- Embedding of the exported `collections` object: an association list of
collection names to collections. -/
def collections : List (String × Collection) :=
  [("posts", posts)]

/-- The four keys declared by the posts schema. -/
def schemaKeys : List String :=
  ["title", "description", "date", "draft"]

/-- Serialisation of a validated result back to front-matter form, making
explicit which keys a successful validation carries. -/
def postToFields (p : Post) : FrontMatter :=
  [("title", Value.vstr p.title), ("description", Value.vstr p.description),
   ("date", Value.vdate (some p.date)), ("draft", Value.vbool p.draft)]

theorem bind_none_of_first_none {α β : Type} {a : Option α} {f : α → Option β}
    (h : a = none) : a.bind f = none := by
  rw [h]; rfl

/-- Claim C1: an entry supplying a string `title`, a string `description`,
a valid `date`, and either omitting `draft` or supplying it as a boolean
validates successfully, and the result carries exactly those field values,
with `draft` filled in as `false` when it was absent. -/
theorem posts_schema_accepts_valid (e : FrontMatter) (t d : String) (ts : Int)
    (dr : Option Bool)
    (ht : lookupKey e "title" = some (Value.vstr t))
    (hd : lookupKey e "description" = some (Value.vstr d))
    (hdt : lookupKey e "date" = some (Value.vdate (some ts)))
    (hdr : lookupKey e "draft" = Option.map Value.vbool dr) :
    validatePosts e =
      some { title := t, description := d, date := ts, draft := dr.getD false } := by
  unfold validatePosts
  rw [ht, hd, hdt, hdr]
  cases dr <;> rfl

/-- Witness for C1: a concrete entry with `draft` absent validates to the
supplied values with `draft = false`. -/
theorem posts_schema_accepts_valid_witness :
    validatePosts
        [("title", Value.vstr "a"), ("description", Value.vstr "b"),
         ("date", Value.vdate (some 1700000000000))] =
      some { title := "a", description := "b", date := 1700000000000,
             draft := false } :=
  posts_schema_accepts_valid _ "a" "b" 1700000000000 none rfl rfl rfl rfl

/-- Claim C2: an entry failing to supply `title`, `description`, or `date`
is rejected by the posts schema. -/
theorem posts_schema_requires_fields (e : FrontMatter)
    (h : lookupKey e "title" = none ∨ lookupKey e "description" = none ∨
      lookupKey e "date" = none) :
    validatePosts e = none := by
  unfold validatePosts
  rcases h with h | h | h
  · rw [h]; rfl
  · cases htitle : parseString (lookupKey e "title") <;> rw [h] <;> rfl
  · cases htitle : parseString (lookupKey e "title") <;>
      cases hdesc : parseString (lookupKey e "description") <;> rw [h] <;> rfl

/-- Witness for C2: the empty entry is rejected. -/
theorem posts_schema_requires_fields_witness :
    validatePosts [] = none :=
  posts_schema_requires_fields [] (Or.inl rfl)

/-- Claim C3: the `date` check passes exactly on values that are valid
dates, and an entry whose `date` does not parse to a date is rejected. -/
theorem posts_schema_date_check (e : FrontMatter) :
    ((parseDate (lookupKey e "date")).isSome ↔
      ∃ ts, lookupKey e "date" = some (Value.vdate (some ts)))
    ∧ (parseDate (lookupKey e "date") = none → validatePosts e = none) := by
  constructor
  · rcases hv : lookupKey e "date" with _ | v
    · simp [parseDate]
    · cases v with
      | vdate t => cases t <;> simp [parseDate]
      | vstr s => simp [parseDate]
      | vnum n => simp [parseDate]
      | vbool b => simp [parseDate]
      | vnull => simp [parseDate]
  · intro h
    unfold validatePosts
    cases htitle : parseString (lookupKey e "title") <;>
      cases hdesc : parseString (lookupKey e "description") <;> rw [h] <;> rfl

/-- Witness for C3: a string-valued `date` does not parse to a date and the
entry is rejected. -/
theorem posts_schema_date_check_witness :
    validatePosts
        [("title", Value.vstr "a"), ("description", Value.vstr "b"),
         ("date", Value.vstr "2023-11-14")] = none :=
  (posts_schema_date_check _).2 rfl

/-- Claim C4: an otherwise-valid entry that omits `draft` validates
successfully with `draft = false` in the result. -/
theorem posts_schema_draft_defaults_false (e : FrontMatter) (t d : String)
    (ts : Int)
    (ht : lookupKey e "title" = some (Value.vstr t))
    (hd : lookupKey e "description" = some (Value.vstr d))
    (hdt : lookupKey e "date" = some (Value.vdate (some ts)))
    (hdr : lookupKey e "draft" = none) :
    validatePosts e =
      some { title := t, description := d, date := ts, draft := false } := by
  unfold validatePosts
  rw [ht, hd, hdt, hdr]
  rfl

/-- Witness for C4: a concrete entry without a `draft` key validates with
`draft = false`. -/
theorem posts_schema_draft_defaults_false_witness :
    validatePosts
        [("title", Value.vstr "t"), ("description", Value.vstr "d"),
         ("date", Value.vdate (some 0))] =
      some { title := "t", description := "d", date := 0, draft := false } :=
  posts_schema_draft_defaults_false _ "t" "d" 0 rfl rfl rfl rfl

/-- Claim C5: an entry whose `title` or `description` is present but not a
string is rejected by the posts schema. -/
theorem posts_schema_rejects_nonstring (e : FrontMatter) (v : Value)
    (hv : ∀ s, v ≠ Value.vstr s)
    (h : lookupKey e "title" = some v ∨ lookupKey e "description" = some v) :
    validatePosts e = none := by
  have hps : parseString (some v) = none := by
    cases v <;> first | rfl | exact absurd rfl (hv _)
  unfold validatePosts
  rcases h with h | h
  · rw [h, hps]; rfl
  · cases htitle : parseString (lookupKey e "title") <;> rw [h, hps] <;> rfl

/-- Witness for C5: a numeric `title` is rejected. -/
theorem posts_schema_rejects_nonstring_witness :
    validatePosts
        [("title", Value.vnum 42), ("description", Value.vstr "d"),
         ("date", Value.vdate (some 0))] = none :=
  posts_schema_rejects_nonstring _ (Value.vnum 42)
    (fun _ h => Value.noConfusion h) (Or.inl rfl)

/-- Claim C6: an entry supplying `draft` with a non-boolean value is
rejected by the posts schema. -/
theorem posts_schema_rejects_nonbool_draft (e : FrontMatter) (v : Value)
    (hv : ∀ b, v ≠ Value.vbool b)
    (h : lookupKey e "draft" = some v) :
    validatePosts e = none := by
  have hpd : parseDraft (some v) = none := by
    cases v <;> first | rfl | exact absurd rfl (hv _)
  unfold validatePosts
  cases htitle : parseString (lookupKey e "title") <;>
    cases hdesc : parseString (lookupKey e "description") <;>
    cases hdate : parseDate (lookupKey e "date") <;> rw [h, hpd] <;> rfl

/-- Witness for C6: a string-valued `draft` is rejected. -/
theorem posts_schema_rejects_nonbool_draft_witness :
    validatePosts
        [("title", Value.vstr "t"), ("description", Value.vstr "d"),
         ("date", Value.vdate (some 0)), ("draft", Value.vstr "yes")] = none :=
  posts_schema_rejects_nonbool_draft _ (Value.vstr "yes")
    (fun _ h => Value.noConfusion h) rfl

/-- Claim C7: the exported `collections` object declares exactly one
collection, under the key "posts", and that collection is the content-type
collection carrying the posts validation schema. -/
theorem collections_single_posts :
    collections = [("posts", posts)] ∧
      posts.type = CollectionType.content ∧
      posts.schema = validatePosts :=
  ⟨rfl, rfl, rfl⟩

/-- Claim C8: an entry whose `date` is a Date object with a NaN timestamp
(an invalid date) is rejected, even though the value has the date type. -/
theorem posts_schema_rejects_invalid_date (e : FrontMatter)
    (h : lookupKey e "date" = some (Value.vdate none)) :
    validatePosts e = none := by
  unfold validatePosts
  cases htitle : parseString (lookupKey e "title") <;>
    cases hdesc : parseString (lookupKey e "description") <;> rw [h] <;> rfl

/-- Witness for C8: a concrete entry with an invalid Date is rejected. -/
theorem posts_schema_rejects_invalid_date_witness :
    validatePosts
        [("title", Value.vstr "t"), ("description", Value.vstr "d"),
         ("date", Value.vdate none)] = none :=
  posts_schema_rejects_invalid_date _ rfl

/-- Claim C9: a successful validation strips unknown keys: the validated
result carries exactly the four schema keys, so no other key appears in it. -/
theorem posts_schema_strips_unknown_keys (e : FrontMatter) (p : Post)
    (_h : validatePosts e = some p) :
    (postToFields p).map Prod.fst = schemaKeys ∧
      ∀ k, k ∉ schemaKeys → lookupKey (postToFields p) k = none := by
  refine ⟨rfl, fun k hk => ?_⟩
  simp only [schemaKeys, List.mem_cons, List.not_mem_nil, or_false, not_or] at hk
  obtain ⟨h1, h2, h3, h4⟩ := hk
  have e1 : ("title" == k) = false := beq_eq_false_iff_ne.mpr (Ne.symm h1)
  have e2 : ("description" == k) = false := beq_eq_false_iff_ne.mpr (Ne.symm h2)
  have e3 : ("date" == k) = false := beq_eq_false_iff_ne.mpr (Ne.symm h3)
  have e4 : ("draft" == k) = false := beq_eq_false_iff_ne.mpr (Ne.symm h4)
  simp [lookupKey, postToFields, List.find?, e1, e2, e3, e4]

/-- Witness for C9: the serialised result of a concrete successful
validation has exactly the schema keys, and an unknown key is absent. -/
theorem posts_schema_strips_unknown_keys_witness :
    (postToFields
        { title := "t", description := "d", date := 0, draft := false }).map
          Prod.fst = schemaKeys ∧
      lookupKey
        (postToFields
          { title := "t", description := "d", date := 0, draft := false })
        "author" = none := by
  have h := posts_schema_strips_unknown_keys
    [("title", Value.vstr "t"), ("description", Value.vstr "d"),
     ("date", Value.vdate (some 0))]
    { title := "t", description := "d", date := 0, draft := false } rfl
  exact ⟨h.1, h.2 "author" (by decide)⟩

/-- Claim C10: validation against the posts schema is deterministic: equal
front-matter inputs yield equal outcomes. -/
theorem posts_schema_deterministic (e₁ e₂ : FrontMatter) (h : e₁ = e₂) :
    validatePosts e₁ = validatePosts e₂ :=
  congrArg validatePosts h

/-- Witness for C10: two identical concrete runs agree. -/
theorem posts_schema_deterministic_witness :
    validatePosts [("title", Value.vstr "x")] =
      validatePosts [("title", Value.vstr "x")] :=
  posts_schema_deterministic _ _ rfl

end Embenauts
